import Mathlib

/-!
Shallow embedding of `src/sonarqube/resource_sonarqube_webhook.go`, the
Terraform provider resource managing SonarQube webhooks.

The Go code mutates a `schema.ResourceData` in place and performs HTTP
round-trips through `httpRequestHelper`, which validates the expected
status code and returns either the raw response or a descriptive error.
Here every operation is a pure function: the outcome of each HTTP call
(transport/status failure, JSON decode failure, or a decoded body) is an
explicit argument, and the operation returns the list of requests it
issued, the final resource state, and the error it returned (if any).
Terraform's `GetOk` returns `false` for a zero value, so an optional
string field is "set" exactly when it is nonempty.
-/

set_option autoImplicit false

namespace SonarqubeWebhook

/-- Webhook type, as decoded from the server's JSON (`key`, `name`, `url`,
`secret`). -/
structure Webhook where
  key : String
  name : String
  URL : String
  secret : String
deriving DecidableEq, Repr

/-- GetWebhooks, the shape of the body of `GET api/webhooks/list`:
`\x7bwebhooks: [...]\x7d`. -/
structure GetWebhooks where
  webhooks : List Webhook
deriving DecidableEq, Repr

/-- CreateWebhookResponse, the shape of the body of
`POST api/webhooks/create`: `\x7bwebhook: \x7bkey, name, url\x7d\x7d`. -/
structure CreateWebhookResponse where
  webhook : Webhook
deriving DecidableEq, Repr

/-- The `schema.ResourceData` of this resource: the identifier (`d.Id()`,
empty means absent) and the five schema fields. `project` and `secret`
are optional: they are "set" (in the `GetOk` sense) exactly when
nonempty. -/
structure ResourceData where
  id : String
  key : String
  name : String
  url : String
  secret : String
  project : String
deriving DecidableEq, Repr

/-- Terraform's `GetOk`: an optional string field is set exactly when it
is not the zero value `""`. -/
def getOk (v : String) : Bool :=
  v != ""

/-- One HTTP request as assembled by an operation: method, path, the
query parameters passed to `url.Values`, and the status code expected by
`httpRequestHelper`. -/
structure Request where
  method : String
  path : String
  params : List (String × String)
  expectedStatus : Nat
deriving DecidableEq, Repr

/-- Outcome of an HTTP call whose body is decoded as JSON into `α`:
either `httpRequestHelper` fails (unexpected status or transport error),
or the body fails to decode, or a value of `α` is obtained. -/
inductive HttpOutcome (α : Type) where
  | transportErr (msg : String)
  | decodeErr (msg : String)
  | body (v : α)
deriving DecidableEq, Repr

/-- Result of one lifecycle operation: the HTTP requests it issued in
order, the `ResourceData` as left by its in-place mutations, and the
error it returned (`none` on success). -/
structure OpResult where
  requests : List Request
  state : ResourceData
  error : Option String
deriving DecidableEq, Repr

/-- The request assembled by `resourceSonarqubeWebhookCreate`: `name` and
`url` always, `project` and `secret` only when set. -/
def createRequest (d : ResourceData) : Request :=
  { method := "POST"
    path := "api/webhooks/create"
    params :=
      [("name", d.name), ("url", d.url)]
        ++ (if getOk d.project then [("project", d.project)] else [])
        ++ (if getOk d.secret then [("secret", d.secret)] else [])
    expectedStatus := 200 }

/-- The request assembled by `resourceSonarqubeWebhookRead`: the query
carries `project` exactly when that field is set. -/
def readRequest (d : ResourceData) : Request :=
  { method := "GET"
    path := "api/webhooks/list"
    params := if getOk d.project then [("project", d.project)] else []
    expectedStatus := 200 }

/-- The loop of `resourceSonarqubeWebhookRead`: scan the decoded webhook
list for the first entry whose `key` equals `d.Id()`, stopping at the
first match (the `break`). -/
def findWebhook (id : String) : List Webhook → Option Webhook
  | [] => none
  | w :: ws => if id == w.key then some w else findWebhook id ws

/-- resourceSonarqubeWebhookRead: `GET api/webhooks/list`, decode
`GetWebhooks`, scan for the current identifier; on a match overwrite
`key`, `name`, `url`, `secret` (and re-set the id); otherwise clear the
identifier and succeed. -/
def resourceSonarqubeWebhookRead (d : ResourceData)
    (listResp : HttpOutcome GetWebhooks) : OpResult :=
  let req := readRequest d
  match listResp with
  | .transportErr msg => ⟨[req], d, some msg⟩
  | .decodeErr msg =>
      ⟨[req], d,
        some ("resourceSonarqubeWebhookRead: Failed to decode json into struct: " ++ msg)⟩
  | .body gw =>
      match findWebhook d.id gw.webhooks with
      | some w =>
          ⟨[req],
            { d with id := w.key, key := w.key, name := w.name,
                     url := w.URL, secret := w.secret },
            none⟩
      | none => ⟨[req], { d with id := "" }, none⟩

/-- resourceSonarqubeWebhookCreate: `POST api/webhooks/create`, decode
`CreateWebhookResponse`; an empty returned key is an error; otherwise
`SetId(key)` and delegate to `resourceSonarqubeWebhookRead`. -/
def resourceSonarqubeWebhookCreate (d : ResourceData)
    (createResp : HttpOutcome CreateWebhookResponse)
    (listResp : HttpOutcome GetWebhooks) : OpResult :=
  let req := createRequest d
  match createResp with
  | .transportErr msg => ⟨[req], d, some msg⟩
  | .decodeErr msg =>
      ⟨[req], d,
        some ("resourceSonarqubeWebhookCreate; Failed to decode json into struct: " ++ msg)⟩
  | .body wr =>
      if wr.webhook.key == "" then
        ⟨[req], d,
          some "resourceSonarqubeWebhookCreate: Create response did not contain the webhook's key"⟩
      else
        let r := resourceSonarqubeWebhookRead { d with id := wr.webhook.key } listResp
        ⟨req :: r.requests, r.state, r.error⟩

/-- The request assembled by `resourceSonarqubeWebhookUpdate`:
`webhook=<id>`, `name`, `url` always, `project` and `secret` only when
set; expected status 204. -/
def updateRequest (d : ResourceData) : Request :=
  { method := "POST"
    path := "api/webhooks/update"
    params :=
      [("webhook", d.id), ("name", d.name), ("url", d.url)]
        ++ (if getOk d.project then [("project", d.project)] else [])
        ++ (if getOk d.secret then [("secret", d.secret)] else [])
    expectedStatus := 204 }

/-- resourceSonarqubeWebhookUpdate: `POST api/webhooks/update`; a failure
of the helper is wrapped and returned; on success delegate to
`resourceSonarqubeWebhookRead`. The 204 endpoints have no body to
decode, so the call outcome is `Except String Unit`. -/
def resourceSonarqubeWebhookUpdate (d : ResourceData)
    (updateResp : Except String Unit)
    (listResp : HttpOutcome GetWebhooks) : OpResult :=
  let req := updateRequest d
  match updateResp with
  | .error msg => ⟨[req], d, some ("Error updating Sonarqube webhook: " ++ msg)⟩
  | .ok _ =>
      let r := resourceSonarqubeWebhookRead d listResp
      ⟨req :: r.requests, r.state, r.error⟩

/-- The request assembled by `resourceSonarqubeWebhookDelete`:
`webhook=<id>`, expected status 204. -/
def deleteRequest (d : ResourceData) : Request :=
  { method := "POST"
    path := "api/webhooks/delete"
    params := [("webhook", d.id)]
    expectedStatus := 204 }

/-- resourceSonarqubeWebhookDelete: `POST api/webhooks/delete`; a failure
of the helper is wrapped and returned; on success return `nil` without
touching the resource data. -/
def resourceSonarqubeWebhookDelete (d : ResourceData)
    (deleteResp : Except String Unit) : OpResult :=
  let req := deleteRequest d
  match deleteResp with
  | .error msg =>
      ⟨[req], d, some ("resourceSonarqubeWebhookDelete: Failed to delete webhook: " ++ msg)⟩
  | .ok _ => ⟨[req], d, none⟩

/-- Result of `resourceSonarqubeWebhookImport`, which returns
`([]*schema.ResourceData, error)`: the requests issued, and either the
error or the singleton list of resource data. -/
structure ImportResult where
  requests : List Request
  result : Except String (List ResourceData)
deriving Repr

/-- resourceSonarqubeWebhookImport: run `resourceSonarqubeWebhookRead`;
on error return `(nil, err)`, otherwise return the singleton list holding
the (mutated) resource data. -/
def resourceSonarqubeWebhookImport (d : ResourceData)
    (listResp : HttpOutcome GetWebhooks) : ImportResult :=
  let r := resourceSonarqubeWebhookRead d listResp
  match r.error with
  | some e => ⟨r.requests, .error e⟩
  | none => ⟨r.requests, .ok [r.state]⟩

/-- Helper: when no entry of the list has the given key, the scan finds
nothing. -/
theorem findWebhook_eq_none (id : String) (ws : List Webhook)
    (h : ∀ w ∈ ws, w.key ≠ id) : findWebhook id ws = none := by
  induction ws with
  | nil => rfl
  | cons w ws ih =>
      have hw : w.key ≠ id := h w (List.mem_cons_self w ws)
      have : (id == w.key) = false := by
        simp [beq_iff_eq]
        exact fun he => hw he.symm
      simp [findWebhook, this]
      exact ih fun w' hw' => h w' (List.mem_cons_of_mem w hw')

/-- Helper: a successful scan returns an entry whose key is the searched
identifier. -/
theorem findWebhook_key (id : String) (ws : List Webhook) (w : Webhook)
    (h : findWebhook id ws = some w) : w.key = id := by
  induction ws with
  | nil => exact absurd h (by simp [findWebhook])
  | cons x xs ih =>
      rw [findWebhook] at h
      by_cases hx : (id == x.key) = true
      · rw [if_pos hx] at h
        injection h with h2
        subst h2
        exact (eq_of_beq hx).symm
      · rw [if_neg hx] at h
        exact ih h

/-- Helper: the loop of Read is a first-match linear scan. -/
theorem findWebhook_eq_find (id : String) (ws : List Webhook) :
    findWebhook id ws = ws.find? (fun x => id == x.key) := by
  induction ws with
  | nil => rfl
  | cons x xs ih =>
      rw [findWebhook, List.find?_cons]
      by_cases hx : (id == x.key) = true
      · simp [hx]
      · simp [hx, ih]

/-- Helper: Read always issues exactly its one list request. -/
theorem read_requests_eq (d : ResourceData) (resp : HttpOutcome GetWebhooks) :
    (resourceSonarqubeWebhookRead d resp).requests = [readRequest d] := by
  cases resp with
  | transportErr msg => rfl
  | decodeErr msg => rfl
  | body gw =>
      simp only [resourceSonarqubeWebhookRead]
      cases findWebhook d.id gw.webhooks <;> rfl

/-- C1: for every list response that decodes, if no entry's key equals the
resource's current identifier, Read clears the identifier (marks the
resource absent) and returns success, not an error. -/
theorem read_absent_clears_identifier (d : ResourceData) (gw : GetWebhooks)
    (h : ∀ w ∈ gw.webhooks, w.key ≠ d.id) :
    (resourceSonarqubeWebhookRead d (.body gw)).error = none ∧
    (resourceSonarqubeWebhookRead d (.body gw)).state.id = "" := by
  have hf := findWebhook_eq_none d.id gw.webhooks h
  simp [resourceSonarqubeWebhookRead, hf]

/-- Witness for C1 at a concrete stale identifier and a concrete
one-entry list response. -/
theorem read_absent_clears_identifier_witness :
    (resourceSonarqubeWebhookRead ⟨"k1", "k1", "n", "u", "", ""⟩
        (.body ⟨[⟨"k2", "n2", "u2", "s2"⟩]⟩)).error = none ∧
    (resourceSonarqubeWebhookRead ⟨"k1", "k1", "n", "u", "", ""⟩
        (.body ⟨[⟨"k2", "n2", "u2", "s2"⟩]⟩)).state.id = "" :=
  read_absent_clears_identifier _ _ (by decide)

/-- C2: a Create response that decodes but carries an empty webhook key
yields the descriptive protocol-violation error, and the resource data
(identifier included) is left untouched. -/
theorem create_empty_key_is_error (d : ResourceData)
    (wr : CreateWebhookResponse) (listResp : HttpOutcome GetWebhooks)
    (h : wr.webhook.key = "") :
    (resourceSonarqubeWebhookCreate d (.body wr) listResp).error =
      some "resourceSonarqubeWebhookCreate: Create response did not contain the webhook's key" ∧
    (resourceSonarqubeWebhookCreate d (.body wr) listResp).state = d := by
  simp [resourceSonarqubeWebhookCreate, h]

/-- Witness for C2 at a concrete decoded response with an empty key. -/
theorem create_empty_key_is_error_witness :
    (resourceSonarqubeWebhookCreate ⟨"", "", "n", "u", "", ""⟩
        (.body ⟨⟨"", "n", "u", ""⟩⟩) (.body ⟨[]⟩)).error =
      some "resourceSonarqubeWebhookCreate: Create response did not contain the webhook's key" ∧
    (resourceSonarqubeWebhookCreate ⟨"", "", "n", "u", "", ""⟩
        (.body ⟨⟨"", "n", "u", ""⟩⟩) (.body ⟨[]⟩)).state = ⟨"", "", "n", "u", "", ""⟩ :=
  create_empty_key_is_error _ _ _ rfl

/-- C3: on a successful Create (decoded body, nonempty key) the
identifier is set to the returned key and Read is invoked immediately,
so the whole result is Read's result on the re-identified data, and when
the list response holds a matching entry the final field values come
from that server entry, not from the create inputs. -/
theorem create_success_reads_server_state (d : ResourceData)
    (wr : CreateWebhookResponse) (listResp : HttpOutcome GetWebhooks)
    (gw : GetWebhooks) (w : Webhook)
    (h : wr.webhook.key ≠ "")
    (hfind : findWebhook wr.webhook.key gw.webhooks = some w) :
    resourceSonarqubeWebhookCreate d (.body wr) listResp =
      { requests := createRequest d ::
          (resourceSonarqubeWebhookRead { d with id := wr.webhook.key } listResp).requests
        state := (resourceSonarqubeWebhookRead { d with id := wr.webhook.key } listResp).state
        error := (resourceSonarqubeWebhookRead { d with id := wr.webhook.key } listResp).error } ∧
    (resourceSonarqubeWebhookCreate d (.body wr) (.body gw)).state =
      { d with id := w.key, key := w.key, name := w.name, url := w.URL, secret := w.secret } := by
  have hb : (wr.webhook.key == "") = false := by simp [h]
  constructor
  · simp [resourceSonarqubeWebhookCreate, hb]
  · simp [resourceSonarqubeWebhookCreate, hb, resourceSonarqubeWebhookRead, hfind]

/-- Witness for C3 at a concrete create response and a list response
containing the returned key with server-normalized fields. -/
theorem create_success_reads_server_state_witness :
    resourceSonarqubeWebhookCreate ⟨"", "", "n", "u", "", ""⟩
        (.body ⟨⟨"AV1", "n", "u", ""⟩⟩) (.body ⟨[⟨"AV1", "srv", "https://x/", "s"⟩]⟩) =
      { requests := createRequest ⟨"", "", "n", "u", "", ""⟩ ::
          (resourceSonarqubeWebhookRead ⟨"AV1", "", "n", "u", "", ""⟩
            (.body ⟨[⟨"AV1", "srv", "https://x/", "s"⟩]⟩)).requests
        state := (resourceSonarqubeWebhookRead ⟨"AV1", "", "n", "u", "", ""⟩
            (.body ⟨[⟨"AV1", "srv", "https://x/", "s"⟩]⟩)).state
        error := (resourceSonarqubeWebhookRead ⟨"AV1", "", "n", "u", "", ""⟩
            (.body ⟨[⟨"AV1", "srv", "https://x/", "s"⟩]⟩)).error } ∧
    (resourceSonarqubeWebhookCreate ⟨"", "", "n", "u", "", ""⟩
        (.body ⟨⟨"AV1", "n", "u", ""⟩⟩) (.body ⟨[⟨"AV1", "srv", "https://x/", "s"⟩]⟩)).state =
      ⟨"AV1", "AV1", "srv", "https://x/", "s", ""⟩ :=
  create_success_reads_server_state ⟨"", "", "n", "u", "", ""⟩
    ⟨⟨"AV1", "n", "u", ""⟩⟩ (.body ⟨[⟨"AV1", "srv", "https://x/", "s"⟩]⟩)
    ⟨[⟨"AV1", "srv", "https://x/", "s"⟩]⟩ ⟨"AV1", "srv", "https://x/", "s"⟩
    (by decide) (by decide)

/-- C4 counterexample: with identifier "AV1" set, the update POST
succeeds (204) yet the list response no longer contains that key, so
Update completes without error with the identifier cleared — refuting
the claim that a successful POST always leaves the identifier set. -/
theorem update_success_can_clear_identifier :
    (resourceSonarqubeWebhookUpdate ⟨"AV1", "AV1", "n", "u", "", ""⟩
        (.ok ()) (.body ⟨[]⟩)).error = none ∧
    (resourceSonarqubeWebhookUpdate ⟨"AV1", "AV1", "n", "u", "", ""⟩
        (.ok ()) (.body ⟨[]⟩)).state.id = "" := by
  decide

/-- C4 amended: if the POST fails, Update returns a wrapped error with
the resource data unchanged; if the POST succeeds, Update delegates to
Read, which keeps the identifier set whenever the list response still
contains it (and clears it otherwise, as the counterexample shows). -/
theorem update_failure_unchanged_success_reads (d : ResourceData)
    (msg : String) (listResp : HttpOutcome GetWebhooks)
    (gw : GetWebhooks) (w : Webhook)
    (hfind : findWebhook d.id gw.webhooks = some w) :
    ((resourceSonarqubeWebhookUpdate d (.error msg) listResp).error =
        some ("Error updating Sonarqube webhook: " ++ msg) ∧
      (resourceSonarqubeWebhookUpdate d (.error msg) listResp).state = d) ∧
    ((resourceSonarqubeWebhookUpdate d (.ok ()) (.body gw)).error = none ∧
      (resourceSonarqubeWebhookUpdate d (.ok ()) (.body gw)).state.id = d.id) := by
  constructor
  · simp [resourceSonarqubeWebhookUpdate]
  · have hkey : w.key = d.id := findWebhook_key d.id gw.webhooks w hfind
    simp [resourceSonarqubeWebhookUpdate, resourceSonarqubeWebhookRead, hfind, hkey]

/-- Witness for the amended C4 at a concrete identifier, a failing POST
message, and a list response still containing the key. -/
theorem update_failure_unchanged_success_reads_witness :
    ((resourceSonarqubeWebhookUpdate ⟨"AV1", "AV1", "n", "u", "", ""⟩
        (.error "boom") (.body ⟨[]⟩)).error =
        some ("Error updating Sonarqube webhook: " ++ "boom") ∧
      (resourceSonarqubeWebhookUpdate ⟨"AV1", "AV1", "n", "u", "", ""⟩
        (.error "boom") (.body ⟨[]⟩)).state = ⟨"AV1", "AV1", "n", "u", "", ""⟩) ∧
    ((resourceSonarqubeWebhookUpdate ⟨"AV1", "AV1", "n", "u", "", ""⟩
        (.ok ()) (.body ⟨[⟨"AV1", "renamed", "u", ""⟩]⟩)).error = none ∧
      (resourceSonarqubeWebhookUpdate ⟨"AV1", "AV1", "n", "u", "", ""⟩
        (.ok ()) (.body ⟨[⟨"AV1", "renamed", "u", ""⟩]⟩)).state.id =
        (⟨"AV1", "AV1", "n", "u", "", ""⟩ : ResourceData).id) :=
  update_failure_unchanged_success_reads ⟨"AV1", "AV1", "n", "u", "", ""⟩
    "boom" (.body ⟨[]⟩) ⟨[⟨"AV1", "renamed", "u", ""⟩]⟩ ⟨"AV1", "renamed", "u", ""⟩
    (by decide)

/-- C5: Delete on a 204 response succeeds and leaves the resource data
untouched, issuing only its one delete request; on any helper failure it
returns the wrapped error, again without mutating the resource data. -/
theorem delete_status_semantics (d : ResourceData) (msg : String) :
    ((resourceSonarqubeWebhookDelete d (.ok ())).error = none ∧
      (resourceSonarqubeWebhookDelete d (.ok ())).state = d ∧
      (resourceSonarqubeWebhookDelete d (.ok ())).requests = [deleteRequest d]) ∧
    ((resourceSonarqubeWebhookDelete d (.error msg)).error =
        some ("resourceSonarqubeWebhookDelete: Failed to delete webhook: " ++ msg) ∧
      (resourceSonarqubeWebhookDelete d (.error msg)).state = d) := by
  simp [resourceSonarqubeWebhookDelete]

/-- C6: Read issues exactly one GET to api/webhooks/list whose query
carries project exactly when that field is set; its loop is a
first-match linear scan for the current identifier; and on a match all
four fields key, name, url, secret are overwritten from the entry. -/
theorem read_request_shape_and_scan (d : ResourceData)
    (resp : HttpOutcome GetWebhooks) (gw : GetWebhooks) (w : Webhook)
    (hfind : findWebhook d.id gw.webhooks = some w) :
    (resourceSonarqubeWebhookRead d resp).requests = [readRequest d] ∧
    (readRequest d).method = "GET" ∧
    (readRequest d).path = "api/webhooks/list" ∧
    (readRequest d).expectedStatus = 200 ∧
    (readRequest d).params.lookup "project" =
      (if getOk d.project then some d.project else none) ∧
    findWebhook d.id gw.webhooks = gw.webhooks.find? (fun x => d.id == x.key) ∧
    (resourceSonarqubeWebhookRead d (.body gw)).state =
      { d with id := w.key, key := w.key, name := w.name,
               url := w.URL, secret := w.secret } := by
  refine ⟨read_requests_eq d resp, rfl, rfl, rfl, ?_,
    findWebhook_eq_find d.id gw.webhooks, ?_⟩
  · cases hp : getOk d.project <;> simp [readRequest, hp, List.lookup]
  · simp [resourceSonarqubeWebhookRead, hfind]

/-- Witness for C6 at a concrete resource with project set and a list
response containing the identifier. -/
theorem read_request_shape_and_scan_witness :
    (resourceSonarqubeWebhookRead ⟨"AV1", "", "n", "u", "", "proj"⟩
        (.transportErr "down")).requests =
      [readRequest ⟨"AV1", "", "n", "u", "", "proj"⟩] ∧
    (readRequest ⟨"AV1", "", "n", "u", "", "proj"⟩).method = "GET" ∧
    (readRequest ⟨"AV1", "", "n", "u", "", "proj"⟩).path = "api/webhooks/list" ∧
    (readRequest ⟨"AV1", "", "n", "u", "", "proj"⟩).expectedStatus = 200 ∧
    (readRequest ⟨"AV1", "", "n", "u", "", "proj"⟩).params.lookup "project" =
      (if getOk "proj" then some "proj" else none) ∧
    findWebhook "AV1" [⟨"AV1", "srv", "https://x/", "s"⟩] =
      List.find? (fun x => "AV1" == x.key) [⟨"AV1", "srv", "https://x/", "s"⟩] ∧
    (resourceSonarqubeWebhookRead ⟨"AV1", "", "n", "u", "", "proj"⟩
        (.body ⟨[⟨"AV1", "srv", "https://x/", "s"⟩]⟩)).state =
      ⟨"AV1", "AV1", "srv", "https://x/", "s", "proj"⟩ :=
  read_request_shape_and_scan ⟨"AV1", "", "n", "u", "", "proj"⟩
    (.transportErr "down") ⟨[⟨"AV1", "srv", "https://x/", "s"⟩]⟩
    ⟨"AV1", "srv", "https://x/", "s"⟩ (by decide)

/-- C7: when the HTTP call succeeds but the body fails to decode, Create
and Read each return an error naming the operation and carrying the
parse error, and leave the resource data untouched. -/
theorem decode_failure_is_fatal (d : ResourceData) (msg : String)
    (listResp : HttpOutcome GetWebhooks) :
    ((resourceSonarqubeWebhookCreate d (.decodeErr msg) listResp).error =
        some ("resourceSonarqubeWebhookCreate; Failed to decode json into struct: " ++ msg) ∧
      (resourceSonarqubeWebhookCreate d (.decodeErr msg) listResp).state = d) ∧
    ((resourceSonarqubeWebhookRead d (.decodeErr msg)).error =
        some ("resourceSonarqubeWebhookRead: Failed to decode json into struct: " ++ msg) ∧
      (resourceSonarqubeWebhookRead d (.decodeErr msg)).state = d) := by
  simp [resourceSonarqubeWebhookCreate, resourceSonarqubeWebhookRead]

/-- C8: Update posts to api/webhooks/update carrying webhook=<id>, name
and url, with project and secret exactly when set, expecting 204; a
failed POST issues no further request, and a successful POST is followed
by exactly one Read, whose state and error become Update's result. -/
theorem update_request_shape_and_single_read (d : ResourceData)
    (listResp : HttpOutcome GetWebhooks) (msg : String) :
    ((updateRequest d).method = "POST" ∧
      (updateRequest d).path = "api/webhooks/update" ∧
      (updateRequest d).expectedStatus = 204 ∧
      (updateRequest d).params.lookup "webhook" = some d.id ∧
      (updateRequest d).params.lookup "name" = some d.name ∧
      (updateRequest d).params.lookup "url" = some d.url ∧
      (updateRequest d).params.lookup "project" =
        (if getOk d.project then some d.project else none) ∧
      (updateRequest d).params.lookup "secret" =
        (if getOk d.secret then some d.secret else none)) ∧
    (resourceSonarqubeWebhookUpdate d (.error msg) listResp).requests =
      [updateRequest d] ∧
    ((resourceSonarqubeWebhookUpdate d (.ok ()) listResp).requests =
        [updateRequest d, readRequest d] ∧
      (resourceSonarqubeWebhookUpdate d (.ok ()) listResp).state =
        (resourceSonarqubeWebhookRead d listResp).state ∧
      (resourceSonarqubeWebhookUpdate d (.ok ()) listResp).error =
        (resourceSonarqubeWebhookRead d listResp).error) := by
  refine ⟨?_, ?_, ?_, ?_, ?_⟩
  · cases hp : getOk d.project <;> cases hs : getOk d.secret <;>
      simp [updateRequest, hp, hs, List.lookup]
  · simp [resourceSonarqubeWebhookUpdate]
  · simp [resourceSonarqubeWebhookUpdate, read_requests_eq]
  · simp [resourceSonarqubeWebhookUpdate]
  · simp [resourceSonarqubeWebhookUpdate]

/-- C9: Import runs Read on the externally supplied identifier and
returns its error exactly when Read errs, and otherwise the singleton
list holding the resource data Read produced. -/
theorem import_delegates_to_read (d : ResourceData)
    (listResp : HttpOutcome GetWebhooks) :
    (resourceSonarqubeWebhookImport d listResp).requests =
      (resourceSonarqubeWebhookRead d listResp).requests ∧
    (resourceSonarqubeWebhookImport d listResp).result =
      (match (resourceSonarqubeWebhookRead d listResp).error with
        | some e => Except.error e
        | none => Except.ok [(resourceSonarqubeWebhookRead d listResp).state]) := by
  cases he : (resourceSonarqubeWebhookRead d listResp).error <;>
    simp [resourceSonarqubeWebhookImport, he]

/-- C10: importing an identifier absent from a decoded list response is
not rejected: Import succeeds and hands back the resource data with the
identifier cleared. -/
theorem import_nonexistent_not_rejected (d : ResourceData) (gw : GetWebhooks)
    (h : ∀ w ∈ gw.webhooks, w.key ≠ d.id) :
    (resourceSonarqubeWebhookImport d (.body gw)).result =
      Except.ok [{ d with id := "" }] := by
  have hf := findWebhook_eq_none d.id gw.webhooks h
  simp [resourceSonarqubeWebhookImport, resourceSonarqubeWebhookRead, hf]

/-- Witness for C10 at a concrete nonexistent identifier and an empty
list response. -/
theorem import_nonexistent_not_rejected_witness :
    (resourceSonarqubeWebhookImport ⟨"AVmissing", "", "n", "u", "", ""⟩
        (.body ⟨[]⟩)).result =
      Except.ok [⟨"", "", "n", "u", "", ""⟩] :=
  import_nonexistent_not_rejected ⟨"AVmissing", "", "n", "u", "", ""⟩ ⟨[]⟩
    (by decide)

end SonarqubeWebhook
